import Mathlib

/-!
Shallow embedding of the pyspark validation script:
`spark_validation.py` (comparison engine) and
`helpers/models/validation_config.py` (configuration model, time
resolution and template rendering).

Machine conventions: Python ints are modelled as `Int` (or `Nat` for
dataset row counts, which are non-negative), Python floats arising from
the percentage computation as `Rat` (every value reached by the claims is
produced exactly by rational arithmetic), fallible construction as
`Except String` / `Option`, and a raised `ZeroDivisionError` as `none`.
-/

namespace SparkValidation

/-- Naive timestamp, mirroring the fields of a Python `datetime.datetime`
value (no timezone is used by the script). -/
structure DateTime where
  year : Nat
  month : Nat
  day : Nat
  hour : Nat
  minute : Nat
  second : Nat
  microsecond : Nat
deriving DecidableEq

/-- The `Setting.granularity` literal: `monthly`, `daily` or `hourly`.
In the source the pydantic field is declared with default `None`, so a
configuration may also carry no granularity; that is modelled by using
`Option Granularity` at use sites. -/
inductive Granularity
  | monthly
  | daily
  | hourly
deriving DecidableEq

/-- Truncation step of `ValidationConfig.set_process_datetime`
(validation_config.py lines 207-228): `monthly` resets the day to 1 and
zeroes the time of day, `daily` zeroes the time of day, and the `else`
branch (taken for `hourly` and also when granularity is unset, i.e.
`None`) zeroes minutes, seconds and microseconds. -/
def truncateDatetime (g : Option Granularity) (d : DateTime) : DateTime :=
  match g with
  | some Granularity.monthly =>
      { d with day := 1, hour := 0, minute := 0, second := 0, microsecond := 0 }
  | some Granularity.daily =>
      { d with hour := 0, minute := 0, second := 0, microsecond := 0 }
  | _ =>
      { d with minute := 0, second := 0, microsecond := 0 }

/-- Model of `ValidationConfig.set_process_datetime` (validation_config.py
lines 195-231): when `args.datetime` is supplied it is parsed with
`datetime.strptime(_, "%Y-%m-%d %H:%M:%S")` (the parse itself is Python
standard library; `override` here is the parsed value), otherwise the
wall clock minus `defaulttimedelay` seconds is used (`fallback` here is
that externally computed value); the chosen timestamp is then truncated
by granularity. -/
def setProcessDatetime (override : Option DateTime) (fallback : DateTime)
    (g : Option Granularity) : DateTime :=
  truncateDatetime g (override.getD fallback)

/-- Result record of `validate_row_count` (spark_validation.py lines
96-103): the returned dict. -/
structure RowCountResult where
  count_source : Nat
  count_target : Nat
  count_diff : Nat
  percentage_diff : Rat
  threshold : Int
  is_passed : Bool
deriving DecidableEq

/-- Model of `validate_row_count` (spark_validation.py lines 76-103).  The two
`DataFrame.count()` calls are external; their results are the `Nat`
inputs.  `count_diff = abs(count_source - count_target)`,
`percentage_diff = count_diff / count_source * 100` — Python raises
`ZeroDivisionError` when `count_source == 0`, modelled as `none` —
and `is_passed = percentage_diff <= threshold` (non-strict). -/
def validate_row_count (count_source count_target : Nat) (threshold : Int) :
    Option RowCountResult :=
  if count_source = 0 then
    none
  else
    let count_diff : Nat := ((count_source : Int) - (count_target : Int)).natAbs
    let percentage_diff : Rat := (count_diff : Rat) / (count_source : Rat) * 100
    some
      { count_source := count_source
        count_target := count_target
        count_diff := count_diff
        percentage_diff := percentage_diff
        threshold := threshold
        is_passed := decide (percentage_diff ≤ (threshold : Rat)) }

/-- Abstraction of a Spark `DataFrame` as the comparison engine sees it:
an ordered sequence of column names (`df.columns`) and the rows, each a
sequence of column-value strings (after Spark has rendered the values
for `concat_ws`).  `concat_ws` skips NULL values; rows here carry the
values it actually concatenates. -/
structure DataFrame where
  columns : List String
  rows : List (List String)

/-- The row fingerprint built by
`selectExpr("concat_ws('||', *) as row")` (spark_validation.py line
118): all column values of the row joined with the delimiter `||`. -/
def rowFingerprint (row : List String) : String :=
  String.intercalate "||" row

/-- Model of `df.selectExpr("concat_ws('||', *) as row").distinct()`
(spark_validation.py lines 118-119): the distinct fingerprints of the
rows of `df`. -/
def distinctFingerprints (df : DataFrame) : List String :=
  (df.rows.map rowFingerprint).dedup

/-- Outcome logged by `validate_content` (spark_validation.py lines
104-136): the schema-match flag, the two diff counts (absent — logged
as `N/A` — when the schemas mismatch) and the pass flag. -/
structure ContentResult where
  schema_match : Bool
  rows_only_in_source : Option Nat
  rows_only_in_target : Option Nat
  is_passed : Bool
deriving DecidableEq

/-- Model of `validate_content` (spark_validation.py lines 104-136).  If the
column-name sequences differ it short-circuits with `schema_match`
false, counts `N/A` and `is_passed` false; otherwise it counts the
distinct fingerprints of each side absent from the other
(`DataFrame.subtract` is set difference on the already-distinct
fingerprint frames) and passes iff both counts are zero. -/
def validate_content (df_source df_target : DataFrame) : ContentResult :=
  if df_source.columns ≠ df_target.columns then
    { schema_match := false
      rows_only_in_source := none
      rows_only_in_target := none
      is_passed := false }
  else
    let source_hash := distinctFingerprints df_source
    let target_hash := distinctFingerprints df_target
    let diff_source_count := (source_hash.filter (fun s => s ∉ target_hash)).length
    let diff_target_count := (target_hash.filter (fun s => s ∉ source_hash)).length
    { schema_match := true
      rows_only_in_source := some diff_source_count
      rows_only_in_target := some diff_target_count
      is_passed := (diff_source_count == 0) && (diff_target_count == 0) }

/-- Set of distinct fingerprints of a dataframe, the specification-level
view used to state the content check as a set difference. -/
def fingerprintSet (df : DataFrame) : Finset String :=
  (df.rows.map rowFingerprint).toFinset

/-- Left-pad the decimal representation of `n` with zeros to 2 digits,
as the Python `strftime` numeric directives do. -/
def pad2 (n : Nat) : String :=
  if n < 10 then "0" ++ toString n else toString n

/-- Left-pad the decimal representation of `n` with zeros to 4 digits
(the `%Y` directive). -/
def pad4 (n : Nat) : String :=
  if n < 10 then "000" ++ toString n
  else if n < 100 then "00" ++ toString n
  else if n < 1000 then "0" ++ toString n
  else toString n

/-- Expansion of one `strftime` directive character against a timestamp.
The script renders paths, queries and the summary-log path; the
directives modelled are the date/time field directives those templates
draw on (`%Y %m %d %H %M %S` and the literal `%%`); any other character
after `%` is passed through unchanged, as the C library renderers
underlying CPython do for unsupported directives. -/
def formatDirective (d : DateTime) (c : Char) : String :=
  if c = 'Y' then pad4 d.year
  else if c = 'm' then pad2 d.month
  else if c = 'd' then pad2 d.day
  else if c = 'H' then pad2 d.hour
  else if c = 'M' then pad2 d.minute
  else if c = 'S' then pad2 d.second
  else if c = '%' then "%"
  else "%" ++ String.singleton c

/-- Character-list worker for `strftime`. -/
def strftimeAux (d : DateTime) : List Char → String
  | [] => ""
  | '%' :: c :: rest => formatDirective d c ++ strftimeAux d rest
  | c :: rest => String.singleton c ++ strftimeAux d rest

/-- Model of `datetime.strftime` as the script uses it: scan the template and
replace each `%`-directive with the corresponding field of `d`. -/
def strftime (d : DateTime) (template : String) : String :=
  strftimeAux d template.toList

/-- Model of `DatabaseOptions` (validation_config.py lines 124-162), restricted
to the fields the validation flow reads: the JDBC `url`, and the
mutually exclusive `dbtable` / `query` pair (`query` is the one field
rendered by `set_strftime_string`).  The remaining members are optional
pass-through tuning keys never consulted by the modelled code. -/
structure DatabaseOptions where
  url : String
  dbtable : Option String
  query : Option String
deriving DecidableEq

/-- Model of `DatabaseConfig` (validation_config.py lines 165-167); its `format`
field is the constant literal `"jdbc"` and is omitted. -/
structure DatabaseConfig where
  options : DatabaseOptions
deriving DecidableEq

/-- The `FileConfig.format` literal (validation_config.py line 108). -/
inductive FileFormat
  | csv
  | parquet
deriving DecidableEq

/-- Model of `FileConfig` (validation_config.py lines 107-121), restricted to the
fields the validation flow reads: `format` and the `path` rendered by
`set_strftime_string` (the `options` mapping is passed through to Spark
unread by the modelled code). -/
structure FileConfig where
  format : FileFormat
  path : String
deriving DecidableEq

/-- The `Datasource.type` literal (validation_config.py line 171). -/
inductive DatasourceType
  | database
  | file
deriving DecidableEq

/-- Model of `Datasource` (validation_config.py lines 170-185): a type tag and
two optional configs. -/
structure Datasource where
  type : DatasourceType
  database_config : Option DatabaseConfig
  file_config : Option FileConfig
deriving DecidableEq

/-- Construction of a `Datasource`, including its `check_target_config`
pydantic validator (validation_config.py lines 175-185): it raises when
`type` is `database` and no `database_config` was supplied, and when
`type` is `file` and no `file_config` was supplied; otherwise the values
pass through unchanged. -/
def mkDatasource (ds_type : DatasourceType)
    (database_config : Option DatabaseConfig)
    (file_config : Option FileConfig) : Except String Datasource :=
  if ds_type = DatasourceType.database ∧ database_config = none then
    Except.error "database_config must be provided for type database."
  else if ds_type = DatasourceType.file ∧ file_config = none then
    Except.error "file_config must be provided for type file."
  else
    Except.ok
      { type := ds_type
        database_config := database_config
        file_config := file_config }

/-- The `Setting.validation_type` literal (validation_config.py lines
27-32). -/
inductive ValidationType
  | hdfs_hdfs
  | hdfs_jdbc
  | jdbc_hdfs
  | jdbc_jdbc
deriving DecidableEq

/-- Model of `Setting` (validation_config.py lines 14-32).  `summary_log` is the
summary-log path template, later rendered in place.  `granularity` and
`validation_type` are declared with default `None`, hence `Option`. -/
structure Setting where
  validation_name : String
  validation_threshold : Int
  validate_content : Bool
  defaulttimedelay : Int
  source_name : String
  destination_name : String
  summary_log : String
  granularity : Option Granularity
  validation_type : Option ValidationType
deriving DecidableEq

/-- Construction of a `Setting`, including the pydantic constraint on
`validation_threshold`, declared as `Field(le=100)` (validation_config.py
line 16): the only bound pydantic enforces is `validation_threshold <=
100`.  All other field checks are type-shaped and hold by construction
here. -/
def mkSetting (validation_name : String) (validation_threshold : Int)
    (validate_content : Bool) (defaulttimedelay : Int)
    (source_name destination_name : String) (summary_log : String)
    (granularity : Option Granularity)
    (validation_type : Option ValidationType) : Except String Setting :=
  if validation_threshold ≤ 100 then
    Except.ok
      { validation_name := validation_name
        validation_threshold := validation_threshold
        validate_content := validate_content
        defaulttimedelay := defaulttimedelay
        source_name := source_name
        destination_name := destination_name
        summary_log := summary_log
        granularity := granularity
        validation_type := validation_type }
  else
    Except.error "Input should be less than or equal to 100"

/-- Model of `ValidationConfig` (validation_config.py lines 188-193) after the
`set_process_datetime` validator has run: settings, the two datasources
and the resolved process timestamp (the `args` record only feeds the
timestamp resolution, modelled separately by `setProcessDatetime`). -/
structure ValidationConfig where
  setting : Setting
  source : Datasource
  target : Datasource
  process_datetime : DateTime
deriving DecidableEq

/-- Rendering of one optional database config by `set_strftime_string`
(validation_config.py lines 238-240): `if config and config.options.query:`
— the query is rendered only when present and non-empty (Python
truthiness). -/
def renderDatabaseConfig (dt : DateTime) :
    Option DatabaseConfig → Option DatabaseConfig
  | none => none
  | some c =>
      match c.options.query with
      | none => some c
      | some q =>
          if q = "" then some c
          else some { c with options := { c.options with query := some (strftime dt q) } }

/-- Rendering of one optional file config by `set_strftime_string`
(validation_config.py lines 241-243): `if config and config.path:` — the
path is rendered only when non-empty (Python truthiness). -/
def renderFileConfig (dt : DateTime) : Option FileConfig → Option FileConfig
  | none => none
  | some c =>
      if c.path = "" then some c
      else some { c with path := strftime dt c.path }

/-- Model of `ValidationConfig.set_strftime_string` (validation_config.py
lines 233-246): renders `setting.summary_log`, the `query` of any database
config on source and target, and the `path` of any file config on source
and target, each once, against the resolved `process_datetime`. -/
def set_strftime_string (v : ValidationConfig) : ValidationConfig :=
  let dt := v.process_datetime
  { v with
    setting := { v.setting with summary_log := strftime dt v.setting.summary_log }
    source :=
      { v.source with
        database_config := renderDatabaseConfig dt v.source.database_config
        file_config := renderFileConfig dt v.source.file_config }
    target :=
      { v.target with
        database_config := renderDatabaseConfig dt v.target.database_config
        file_config := renderFileConfig dt v.target.file_config } }

/-- Whether a pydantic model construction succeeded, i.e. the validator
raised no `ValueError` / `ValidationError`. -/
def constructionSucceeds {α : Type} : Except String α → Bool
  | Except.ok _ => true
  | Except.error _ => false

/-- Counting the distinct elements of `l1` absent from the distinct
elements of `l2` gives the cardinality of the set difference of the two
element sets.  This connects the list-level computation of
`validate_content` with the set-difference reading of the spec. -/
theorem length_filter_dedup_eq_card_sdiff (l1 l2 : List String) :
    (l1.dedup.filter (fun s => s ∉ l2.dedup)).length
      = (l1.toFinset \ l2.toFinset).card := by
  have nd : (l1.dedup.filter (fun s => decide (s ∉ l2.dedup))).Nodup :=
    (List.nodup_dedup l1).filter _
  rw [← List.toFinset_card_of_nodup nd, List.toFinset_filter, Finset.sdiff_eq_filter]
  congr 1
  ext x
  simp

/-- Claim C1: the claim states that for `count_source = 0` the row-count
check completes without raising and yields a defined `percentage_diff`.
The code instead evaluates `count_diff / count_source * 100` unguarded,
which raises `ZeroDivisionError` in Python whenever `count_source = 0`
(modelled as `none`), for every target count — in particular for
`count_target = 0` — and every threshold.  The check therefore crashes
exactly where the claim promises a defined result. -/
theorem validate_row_count_zero_source (ct : Nat) (t : Int) :
    validate_row_count 0 ct t = none := rfl

/-- Claim C2: for `count_source ≥ 1` the row-count check returns a
result with `count_diff = |count_source - count_target|`,
`percentage_diff = count_diff / count_source * 100` and
`is_passed ↔ percentage_diff ≤ threshold` (non-strict); in particular
`(100, 97, 5)` yields `percentage_diff = 3` with `is_passed = true` and
`(100, 80, 5)` yields `percentage_diff = 20` with `is_passed = false`. -/
theorem validate_row_count_spec (cs ct : Nat) (t : Int) (h : 1 ≤ cs) :
    (∃ r, validate_row_count cs ct t = some r ∧
      r.count_source = cs ∧ r.count_target = ct ∧ r.threshold = t ∧
      r.count_diff = ((cs : Int) - (ct : Int)).natAbs ∧
      r.percentage_diff = (r.count_diff : Rat) / (cs : Rat) * 100 ∧
      (r.is_passed = true ↔ r.percentage_diff ≤ (t : Rat))) ∧
    validate_row_count 100 97 5 = some ⟨100, 97, 3, 3, 5, true⟩ ∧
    validate_row_count 100 80 5 = some ⟨100, 80, 20, 20, 5, false⟩ := by
  have hcs : ¬(cs = 0) := by omega
  refine ⟨?_, ?_, ?_⟩
  · simp only [validate_row_count, if_neg hcs]
    exact ⟨_, rfl, rfl, rfl, rfl, rfl, rfl, by rw [decide_eq_true_eq]⟩
  · simp only [validate_row_count]
    norm_num
  · simp only [validate_row_count]
    norm_num

/-- Witness for claim C2, instantiating the row-count theorem at the
documented example `count_source = 100`, `count_target = 97`,
`threshold = 5`. -/
theorem validate_row_count_spec_witness :
    (∃ r, validate_row_count 100 97 5 = some r ∧
      r.count_source = 100 ∧ r.count_target = 97 ∧ r.threshold = 5 ∧
      r.count_diff = (((100 : Nat) : Int) - ((97 : Nat) : Int)).natAbs ∧
      r.percentage_diff = (r.count_diff : Rat) / ((100 : Nat) : Rat) * 100 ∧
      (r.is_passed = true ↔ r.percentage_diff ≤ ((5 : Int) : Rat))) ∧
    validate_row_count 100 97 5 = some ⟨100, 97, 3, 3, 5, true⟩ ∧
    validate_row_count 100 80 5 = some ⟨100, 80, 20, 20, 5, false⟩ :=
  validate_row_count_spec 100 97 5 (by decide)

/-- Claim C3: when the column-name sequences agree, the content check
reports `rows_only_in_source` and `rows_only_in_target` as the
cardinalities of the two set differences of distinct row fingerprints
(values joined by `||`), and passes exactly when both are zero; in
particular one extra distinct row on each side yields counts `1`, `1`
and `is_passed = false`. -/
theorem validate_content_eq (src tgt : DataFrame) (h : src.columns = tgt.columns) :
    validate_content src tgt =
      { schema_match := true
        rows_only_in_source := some (fingerprintSet src \ fingerprintSet tgt).card
        rows_only_in_target := some (fingerprintSet tgt \ fingerprintSet src).card
        is_passed := decide ((fingerprintSet src \ fingerprintSet tgt).card = 0
          ∧ (fingerprintSet tgt \ fingerprintSet src).card = 0) } ∧
    validate_content ⟨["a"], [["1"], ["2"]]⟩ ⟨["a"], [["1"], ["3"]]⟩ =
      { schema_match := true, rows_only_in_source := some 1,
        rows_only_in_target := some 1, is_passed := false } := by
  constructor
  · simp only [validate_content, distinctFingerprints, fingerprintSet, h, ne_eq,
      not_true_eq_false, if_false, length_filter_dedup_eq_card_sdiff]
    rw [ContentResult.mk.injEq]
    refine ⟨rfl, rfl, rfl, ?_⟩
    rw [Bool.decide_and, Bool.beq_eq_decide_eq, Bool.beq_eq_decide_eq]
  · decide

/-- Witness for claim C3, instantiating the content-check theorem at two
one-column dataframes sharing row `1`, with extra distinct rows `2`
(source) and `3` (target). -/
theorem validate_content_eq_witness :
    ((validate_content ⟨["a"], [["1"], ["2"]]⟩ ⟨["a"], [["1"], ["3"]]⟩ =
      { schema_match := true
        rows_only_in_source :=
          some (fingerprintSet ⟨["a"], [["1"], ["2"]]⟩ \ fingerprintSet ⟨["a"], [["1"], ["3"]]⟩).card
        rows_only_in_target :=
          some (fingerprintSet ⟨["a"], [["1"], ["3"]]⟩ \ fingerprintSet ⟨["a"], [["1"], ["2"]]⟩).card
        is_passed := decide
          ((fingerprintSet ⟨["a"], [["1"], ["2"]]⟩ \ fingerprintSet ⟨["a"], [["1"], ["3"]]⟩).card = 0
            ∧ (fingerprintSet ⟨["a"], [["1"], ["3"]]⟩ \ fingerprintSet ⟨["a"], [["1"], ["2"]]⟩).card = 0) }) ∧
      validate_content ⟨["a"], [["1"], ["2"]]⟩ ⟨["a"], [["1"], ["3"]]⟩ =
        { schema_match := true, rows_only_in_source := some 1,
          rows_only_in_target := some 1, is_passed := false }) :=
  validate_content_eq ⟨["a"], [["1"], ["2"]]⟩ ⟨["a"], [["1"], ["3"]]⟩ rfl

/-- Claim C4: when the column-name sequences differ (by name or order),
the content check short-circuits: `schema_match = false`,
`is_passed = false`, and both diff counts stay undefined (`none` — the
fingerprint and set-difference computation is never reached, the
function returns directly from the mismatch branch); in particular for
identical column sets merely reordered. -/
theorem validate_content_schema_mismatch (src tgt : DataFrame)
    (h : src.columns ≠ tgt.columns) :
    validate_content src tgt =
      { schema_match := false, rows_only_in_source := none,
        rows_only_in_target := none, is_passed := false } ∧
    validate_content ⟨["a", "b"], [["1", "2"]]⟩ ⟨["b", "a"], [["1", "2"]]⟩ =
      { schema_match := false, rows_only_in_source := none,
        rows_only_in_target := none, is_passed := false } := by
  constructor
  · simp only [validate_content, if_pos h]
  · decide

/-- Witness for claim C4, instantiating the schema-mismatch theorem at
two dataframes whose columns are the same set reordered. -/
theorem validate_content_schema_mismatch_witness :
    ((DataFrame.mk ["a", "b"] []).columns ≠ (DataFrame.mk ["b", "a"] []).columns) ∧
    (validate_content ⟨["a", "b"], []⟩ ⟨["b", "a"], []⟩ =
      { schema_match := false, rows_only_in_source := none,
        rows_only_in_target := none, is_passed := false } ∧
    validate_content ⟨["a", "b"], [["1", "2"]]⟩ ⟨["b", "a"], [["1", "2"]]⟩ =
      { schema_match := false, rows_only_in_source := none,
        rows_only_in_target := none, is_passed := false }) :=
  ⟨by decide, validate_content_schema_mismatch ⟨["a", "b"], []⟩ ⟨["b", "a"], []⟩ (by decide)⟩

/-- Claim C5: with an explicit override datetime the resolved
`process_datetime` is the parsed override truncated by granularity:
`monthly` sets the day to 1 and zeroes the time of day, `daily` zeroes
the time of day, `hourly` zeroes minutes, seconds and microseconds; in
particular override `2024-03-15 14:32:10` with granularity `daily`
resolves to `2024-03-15 00:00:00`, regardless of the wall-clock
fallback. -/
theorem setProcessDatetime_override (fb d : DateTime) :
    setProcessDatetime (some d) fb (some Granularity.monthly) =
      { d with day := 1, hour := 0, minute := 0, second := 0, microsecond := 0 } ∧
    setProcessDatetime (some d) fb (some Granularity.daily) =
      { d with hour := 0, minute := 0, second := 0, microsecond := 0 } ∧
    setProcessDatetime (some d) fb (some Granularity.hourly) =
      { d with minute := 0, second := 0, microsecond := 0 } ∧
    setProcessDatetime (some ⟨2024, 3, 15, 14, 32, 10, 0⟩) fb (some Granularity.daily) =
      ⟨2024, 3, 15, 0, 0, 0, 0⟩ :=
  ⟨rfl, rfl, rfl, rfl⟩

/-- Claim C6: for every granularity in `{monthly, daily, hourly}` the
truncation is idempotent — truncating an already-truncated timestamp
yields the same timestamp. -/
theorem truncateDatetime_idempotent (g : Granularity) (d : DateTime) :
    truncateDatetime (some g) (truncateDatetime (some g) d)
      = truncateDatetime (some g) d := by
  cases g <;> rfl

/-- Rendering the empty template yields the empty string. -/
theorem strftime_empty (d : DateTime) : strftime d "" = "" := rfl

/-- Rendering by `set_strftime_string` maps the optional database query
through `strftime` (the Python truthiness guard on an empty query is
immaterial because rendering an empty template is the identity). -/
theorem renderDatabaseConfig_query (dt : DateTime) (o : Option DatabaseConfig) :
    (renderDatabaseConfig dt o).bind (fun c => c.options.query)
      = (o.bind (fun c => c.options.query)).map (strftime dt) := by
  match o with
  | none => rfl
  | some c =>
    match hq : c.options.query with
    | none => simp [renderDatabaseConfig, hq]
    | some q =>
      by_cases hq0 : q = ""
      · subst hq0
        simp [renderDatabaseConfig, hq, strftime_empty]
      · simp [renderDatabaseConfig, hq, hq0]

/-- Rendering by `set_strftime_string` maps the optional file path
through `strftime` (the truthiness guard on an empty path is immaterial
because rendering an empty template is the identity). -/
theorem renderFileConfig_path (dt : DateTime) (o : Option FileConfig) :
    (renderFileConfig dt o).map (fun c => c.path)
      = (o.map (fun c => c.path)).map (strftime dt) := by
  match o with
  | none => rfl
  | some c =>
    by_cases hp : c.path = ""
    · simp [renderFileConfig, hp, strftime_empty]
    · simp [renderFileConfig, hp]

/-- Claim C7: after truncation, `set_strftime_string` renders each
templated field exactly once via `strftime` against the resolved
`process_datetime`: the summary-log path template, any database query
present on source or target, and any file path template present on
source or target; in particular `%Y-%m` rendered at `2024-07-01`
yields `2024-07`. -/
theorem set_strftime_string_spec (v : ValidationConfig) :
    (set_strftime_string v).setting.summary_log
        = strftime v.process_datetime v.setting.summary_log ∧
    (set_strftime_string v).source.database_config.bind (fun c => c.options.query)
        = (v.source.database_config.bind (fun c => c.options.query)).map
            (strftime v.process_datetime) ∧
    (set_strftime_string v).target.database_config.bind (fun c => c.options.query)
        = (v.target.database_config.bind (fun c => c.options.query)).map
            (strftime v.process_datetime) ∧
    (set_strftime_string v).source.file_config.map (fun c => c.path)
        = (v.source.file_config.map (fun c => c.path)).map (strftime v.process_datetime) ∧
    (set_strftime_string v).target.file_config.map (fun c => c.path)
        = (v.target.file_config.map (fun c => c.path)).map (strftime v.process_datetime) ∧
    strftime ⟨2024, 7, 1, 0, 0, 0, 0⟩ "%Y-%m" = "2024-07" :=
  ⟨rfl, renderDatabaseConfig_query _ _, renderDatabaseConfig_query _ _,
   renderFileConfig_path _ _, renderFileConfig_path _ _, by decide⟩

/-- Counterexample to claim C8: the claim states that constructing a
`Datasource` fails when both `file_config` and `database_config` are
supplied; the `check_target_config` validator only checks that the
config matching `type` is present, so a `file` datasource carrying both
configs is accepted. -/
theorem mkDatasource_both_configs_accepted :
    constructionSucceeds
      (mkDatasource DatasourceType.file
        (some { options := { url := "jdbc:mysql://host/db", dbtable := some "t", query := none } })
        (some { format := FileFormat.csv, path := "/data/in.csv" })) = true := rfl

/-- Claim C8 (amended): `Datasource` construction fails exactly when the
config matching the stated kind is absent; every accepted `Datasource`
has the kind-matching config present, but supplying the other config as
well is not rejected. -/
theorem mkDatasource_ok_iff (t : DatasourceType) (dbc : Option DatabaseConfig)
    (fc : Option FileConfig) :
    constructionSucceeds (mkDatasource t dbc fc) = true ↔
      ((t = DatasourceType.database ∧ dbc.isSome = true)
        ∨ (t = DatasourceType.file ∧ fc.isSome = true)) := by
  cases t <;> cases dbc <;> cases fc <;> simp [mkDatasource, constructionSucceeds]

/-- Counterexample to claim C9: the claim states that every negative
`validation_threshold` is rejected; the pydantic field is declared
`Field(le=100)` with no lower bound, so a setting with threshold `-5`
is accepted. -/
theorem mkSetting_negative_threshold_accepted :
    constructionSucceeds (mkSetting "v" (-5) false 0 "s" "d" "log" none none) = true := rfl

/-- Claim C9 (amended): `Setting` construction fails exactly when
`validation_threshold > 100`; only the upper bound of the documented
range `[0, 100]` is enforced, and negative thresholds are accepted. -/
theorem mkSetting_ok_iff (n : String) (t : Int) (vc : Bool) (dtd : Int)
    (sn dn sl : String) (g : Option Granularity) (vt : Option ValidationType) :
    constructionSucceeds (mkSetting n t vc dtd sn dn sl g vt) = true ↔ t ≤ 100 := by
  by_cases h : t ≤ 100 <;> simp [mkSetting, h, constructionSucceeds]

/-- Claim C10: a configuration whose `granularity` is omitted (the
declared pydantic default is `None`) still constructs, and the
truncation then takes the `else` branch of `set_process_datetime`, the
hourly one: minutes, seconds and microseconds are zeroed while year,
month, day and hour are preserved, for both the override and the
fallback timestamp. -/
theorem granularity_unset_defaults_hourly (ov : Option DateTime) (fb : DateTime) :
    constructionSucceeds (mkSetting "v" 5 false 0 "s" "d" "log" none none) = true ∧
    (setProcessDatetime ov fb none).minute = 0 ∧
    (setProcessDatetime ov fb none).second = 0 ∧
    (setProcessDatetime ov fb none).microsecond = 0 ∧
    (setProcessDatetime ov fb none).year = (ov.getD fb).year ∧
    (setProcessDatetime ov fb none).month = (ov.getD fb).month ∧
    (setProcessDatetime ov fb none).day = (ov.getD fb).day ∧
    (setProcessDatetime ov fb none).hour = (ov.getD fb).hour :=
  ⟨rfl, rfl, rfl, rfl, rfl, rfl, rfl, rfl⟩

end SparkValidation
